import Mathlib

/-!
Shallow embedding of the transcribe-app concurrency core
(`src-tauri/src/main.rs` and `src-tauri/src/local_task_handler.rs`)
and proofs about the claims of its specification.

Modelling conventions:
* Machine integers are `Nat`/`Int` with explicit `% 2^w` where overflow matters.
* Fallible external collaborators (osascript processes, tray-icon updates,
  input injection, temp-file IO, one-shot channel sends) are modelled by
  outcome fields in an environment record: each field records the outcome the
  external world would produce for the corresponding call.
* A Rust `unwrap()`/panic is `Except.error ()`: the dispatched unit of work
  aborts and produces no further state or events.
* Observable side effects (commands issued to osascript, icon changes,
  channel sends, key injections, log lines) are collected in an event trace.
-/

namespace Transcribe

/-! ## Icons and observable events -/

/-- Tray icon states used by the code (`Icon::Recording`, `Icon::Default`,
and the transcribing icon of `main.rs`). -/
inductive Icon where
  | Default
  | Recording
  | Transcribing
  deriving DecidableEq, Repr

/-- Observable side effects of the core, in the order they are performed. -/
inductive Event where
  /-- osascript query: is the Spotify process running? -/
  | queryRunning
  /-- osascript query: Spotify player state. -/
  | queryState
  /-- osascript command: tell Spotify to pause. -/
  | pauseCmd
  /-- osascript command: tell Spotify to play. -/
  | playCmd
  /-- Tray icon changed. -/
  | iconSet (i : Icon)
  /-- Attempted send of a byte vector on the `ToggleRecording` one-shot. -/
  | sendBytes (b : List Nat)
  /-- Attempted send of `()` on the `UndoText` one-shot. -/
  | sendUnit
  /-- Enigo paste-from-clipboard key injection. -/
  | pasteKeys
  /-- Enigo undo (Cmd+Z style) key injection. -/
  | undoKeys
  /-- `log::error!("Failed to stop recording")`. -/
  | logStopFailed
  /-- `log::error!("Failed to send recording to channel")`. -/
  | logSendFailed
  deriving DecidableEq, Repr

/-! ## AudioRecorder (`main.rs` lines 33-185) -/

/-- Input device configuration negotiated by cpal
(`device.default_input_config()`). -/
structure DeviceConfig where
  sample_rate : Nat
  channels : Nat
  deriving DecidableEq, Repr

/-- State of `AudioRecorder` (`main.rs` lines 33-39).  The cpal `Stream`
handle is modelled by its presence (`Option Unit`); the `Arc<Mutex<Vec<i16>>>`
sample buffer by a list of signed 16-bit sample values. -/
structure AudioRecorder where
  stream : Option Unit
  sample_rate : Option Nat
  channels : Option Nat
  samples : List Int
  is_recording : Bool
  deriving DecidableEq, Repr

/-- `AudioRecorder::new` (`main.rs` lines 42-50). -/
def AudioRecorder.new : AudioRecorder :=
  { stream := none
    sample_rate := none
    channels := none
    samples := []
    is_recording := false }

/-- `AudioRecorder::start_recording` (`main.rs` lines 52-104) on executions
that return: if already recording return unchanged; otherwise store the
negotiated format, clear the sample buffer, set `is_recording`, build and
start the stream.  (Device/stream acquisition failures `expect`-abort the
whole process and so have no post-state.) -/
def AudioRecorder.start_recording (cfg : DeviceConfig) (r : AudioRecorder) :
    AudioRecorder :=
  if r.is_recording then r
  else
    { stream := some ()
      sample_rate := some cfg.sample_rate
      channels := some cfg.channels
      samples := []
      is_recording := true }

/-- The cpal input callback (`main.rs` lines 83-96): while a stream is live it
appends converted samples to the shared buffer.  The f32-to-i16 conversion is
done by the callback; the model receives the already-converted samples. -/
def AudioRecorder.capture (xs : List Int) (r : AudioRecorder) : AudioRecorder :=
  if r.stream.isSome then { r with samples := r.samples ++ xs } else r

/-- Little-endian bytes of an unsigned 16-bit value. -/
def u16le (n : Nat) : List Nat :=
  [n % 256, n / 256 % 256]

/-- Little-endian bytes of an unsigned 32-bit value. -/
def u32le (n : Nat) : List Nat :=
  [n % 256, n / 256 % 256, n / 65536 % 256, n / 16777216 % 256]

/-- Little-endian two's-complement bytes of a signed 16-bit sample. -/
def i16le (i : Int) : List Nat :=
  u16le (i % 65536).toNat

/-- The canonical 44-byte WAV header hound writes for a 16-bit integer PCM
file with the given channel count, sample rate and number of samples. -/
def wavHeader (channels rate numSamples : Nat) : List Nat :=
  [82, 73, 70, 70] ++ u32le (36 + 2 * numSamples) ++ [87, 65, 86, 69] ++
  [102, 109, 116, 32] ++ u32le 16 ++ u16le 1 ++ u16le channels ++
  u32le rate ++ u32le (rate * channels * 2) ++ u16le (channels * 2) ++
  u16le 16 ++ [100, 97, 116, 97] ++ u32le (2 * numSamples)

/-- The byte contents of the WAV file written by
`stop_recording_and_get_bytes` (header followed by the samples, each as two
little-endian bytes) and read back from disk. -/
def wavBytes (channels rate : Nat) (samples : List Int) : List Nat :=
  wavHeader channels rate samples.length ++ samples.flatMap i16le

/-- `AudioRecorder::stop_recording_and_get_bytes` (`main.rs` lines 106-184).
Returns the post-state and the optional encoded bytes.  `ioOk` is the outcome
of the temp-file pipeline (NamedTempFile creation, WAV writer creation,
sample writes, finalisation, read-back): any failure there returns `None`.
Note the source clones the shared sample buffer (line 123); it does not
clear it. -/
def AudioRecorder.stop_recording_and_get_bytes (ioOk : Bool)
    (r : AudioRecorder) : AudioRecorder × Option (List Nat) :=
  if !r.is_recording then (r, none)
  else
    let r' : AudioRecorder := { r with is_recording := false, stream := none }
    let samples := r.samples
    match r.sample_rate, r.channels with
    | some rate, some chans =>
        if samples.isEmpty then (r', none)
        else if ioOk then (r', some (wavBytes chans rate samples))
        else (r', none)
    | _, _ => (r', none)

/-! ## MediaPlayer (`local_task_handler.rs` lines 80-123) -/

/-- `MediaPlayer` state (`local_task_handler.rs` lines 80-82). -/
structure MediaPlayer where
  was_playing : Bool
  deriving DecidableEq, Repr

/-- `MediaPlayer::new` (`local_task_handler.rs` lines 85-87). -/
def MediaPlayer.new : MediaPlayer :=
  { was_playing := false }

/-- Outcomes of the external world for one dispatched task: what each
collaborator call would return if performed. -/
structure StepEnv where
  /-- Result of the osascript "is Spotify running" query: `none` models a
  process or UTF-8 failure, `some b` a successful query answering `b`. -/
  runningAnswer : Option Bool
  /-- Result of the osascript "player state" query: `none` models failure,
  `some b` success with `b` meaning the state string is "playing". -/
  stateAnswer : Option Bool
  /-- Whether the osascript pause command's `output()` succeeds. -/
  pauseOk : Bool
  /-- Whether the osascript play command's `output()` succeeds. -/
  playOk : Bool
  /-- Whether `TranscribeIcon::change_icon` succeeds. -/
  iconOk : Bool
  /-- The device configuration cpal negotiates for `start_recording`. -/
  cfg : DeviceConfig
  /-- Samples the OS audio callback appended while the stream was live. -/
  captured : List Int
  /-- Whether the temp-file pipeline of `stop_recording_and_get_bytes`
  succeeds. -/
  stopIoOk : Bool
  /-- Whether `EnigoInstance::paste_from_clipboard` succeeds. -/
  pasteOk : Bool
  /-- Whether `EnigoInstance::undo_text` succeeds. -/
  undoOk : Bool
  /-- Whether the one-shot receiver is still alive, so sends succeed. -/
  replyOk : Bool
  deriving Repr

/-- `MediaPlayer::pause_spotify` (`local_task_handler.rs` lines 89-108):
query whether Spotify is running, query its player state, and iff both
"running" and "playing" issue a pause command and record `was_playing`.
`Except.error ()` is the `?`-propagated process/UTF-8 failure (which, under
the caller's `unwrap()`, panics the dispatched task). -/
def MediaPlayer.pause_spotify (env : StepEnv) (m : MediaPlayer) :
    Except Unit (MediaPlayer × List Event) :=
  match env.runningAnswer with
  | none => .error ()
  | some isRunning =>
    match env.stateAnswer with
    | none => .error ()
    | some isPlaying =>
      if isRunning && isPlaying then
        if env.pauseOk then
          .ok ({ m with was_playing := true },
               [.queryRunning, .queryState, .pauseCmd])
        else .error ()
      else .ok (m, [.queryRunning, .queryState])

/-- `MediaPlayer::play_spotify` (`local_task_handler.rs` lines 110-122):
no-op unless `was_playing`; otherwise issue a play command and clear the
flag (left set if the command itself fails). -/
def MediaPlayer.play_spotify (env : StepEnv) (m : MediaPlayer) :
    Except Unit (MediaPlayer × List Event) :=
  if !m.was_playing then .ok (m, [])
  else if env.playOk then .ok ({ m with was_playing := false }, [.playCmd])
  else .error ()

/-! ## The Resource Owner's task dispatch (`local_task_handler.rs` lines 14-78) -/

/-- `Task` (`local_task_handler.rs` lines 15-19).  Reply channels are
implicit: sends on them are events and their delivery outcome is
`StepEnv.replyOk`. -/
inductive Task where
  | ToggleRecording
  | PasteFromClipboard
  | UndoText
  deriving DecidableEq, Repr

/-- The state owned by the Resource Owner thread. -/
structure OwnerState where
  recorder : AudioRecorder
  media : MediaPlayer
  deriving DecidableEq, Repr

/-- Initial owner state (`local_task_handler.rs` lines 32-33). -/
def OwnerState.init : OwnerState :=
  { recorder := AudioRecorder.new, media := MediaPlayer.new }

/-- One dispatched unit of work of `run_local_task_handler`
(`local_task_handler.rs` lines 38-74): the body of the `match task`.
`Except.error ()` models a panic of the spawned task (an `unwrap()` on a
collaborator failure); `.ok` returns the new owner state and the event
trace of the unit. -/
def local_task_step (env : StepEnv) (s : OwnerState) :
    Task → Except Unit (OwnerState × List Event)
  | .ToggleRecording =>
    if !s.recorder.is_recording then
      match s.media.pause_spotify env with
      | .error _ => .error ()
      | .ok (m', ev1) =>
        if env.iconOk then
          let r' := s.recorder.start_recording env.cfg
          .ok ({ recorder := r', media := m' },
               ev1 ++ [.iconSet .Recording, .sendBytes []])
        else .error ()
    else
      if env.iconOk then
        match s.recorder.stop_recording_and_get_bytes env.stopIoOk with
        | (r', none) =>
          .ok ({ s with recorder := r' }, [.iconSet .Default, .logStopFailed])
        | (r', some bytes) =>
          match s.media.play_spotify env with
          | .error _ => .error ()
          | .ok (m', ev2) =>
            let sendEvs :=
              if env.replyOk then [Event.sendBytes bytes]
              else [Event.sendBytes bytes, Event.logSendFailed]
            .ok ({ recorder := r', media := m' },
                 .iconSet .Default :: ev2 ++ sendEvs)
      else .error ()
  | .PasteFromClipboard =>
    if env.pasteOk then .ok (s, [.pasteKeys]) else .error ()
  | .UndoText =>
    if env.undoOk then
      if env.replyOk then .ok (s, [.undoKeys, .sendUnit]) else .error ()
    else .error ()

/-- The byte-vector reply a unit of work attempted to send on the
`ToggleRecording` one-shot, if any. -/
def replyOf (evs : List Event) : Option (List Nat) :=
  evs.findSome? fun e =>
    match e with
    | .sendBytes b => some b
    | _ => none

/-- A sequence of `ToggleRecording` tasks handled by the Resource Owner:
before each dispatch the OS audio callback may have appended samples
(`env.captured`); `none` if any unit of work panicked, otherwise the final
state and the per-task attempted replies. -/
def runToggles : List StepEnv → OwnerState →
    Option (OwnerState × List (Option (List Nat)))
  | [], s => some (s, [])
  | env :: rest, s =>
    match local_task_step env
        { s with recorder := s.recorder.capture env.captured } .ToggleRecording with
    | .error _ => none
    | .ok (s2, evs) =>
      match runToggles rest s2 with
      | none => none
      | some (sf, replies) => some (sf, replyOf evs :: replies)

/-! ## Trigger-side `toggle_recording` (`main.rs` lines 421-464) -/

/-- `RecordingResult` (`main.rs` lines 421-424). -/
inductive RecordingResult where
  | RecordingResult (bytes : List Nat)
  | StartRecording
  deriving DecidableEq, Repr

/-- The trigger-side `toggle_recording` of `main.rs` (lines 430-464), acting
on the thread-local `RECORDER`.  On the start branch it issues an osascript
pause command unconditionally (result ignored, lines 445-447), starts
recording, then sets the recording icon (`?`-propagating failures, merged
into `iconOk`).  On the stop branch a `None` from the recorder becomes an
`Err` via `context`, else the transcribing icon is set and the bytes
returned.  Result: post-recorder state, `Ok`/`Err` outcome, events. -/
def toggle_recording (iconOk : Bool) (cfg : DeviceConfig) (stopIoOk : Bool)
    (r : AudioRecorder) :
    AudioRecorder × Except Unit RecordingResult × List Event :=
  if !r.is_recording then
    let r' := r.start_recording cfg
    if iconOk then (r', .ok .StartRecording, [.pauseCmd, .iconSet .Recording])
    else (r', .error (), [.pauseCmd])
  else
    match r.stop_recording_and_get_bytes stopIoOk with
    | (r', none) => (r', .error (), [])
    | (r', some bytes) =>
      if iconOk then
        (r', .ok (.RecordingResult bytes), [.iconSet .Transcribing])
      else (r', .error (), [])

/-! ## Polish Workflow Coordinator (spec §4.3; code absent from the snapshot) -/

/-- Observable steps of the polish workflow and of the Resource Owner
handling its `UndoText`/`PasteFromClipboard` submissions. -/
inductive PolishEvent where
  /-- Clipboard read attempt (workflow step 1). -/
  | readClipboard
  /-- EmptyClipboard notification. -/
  | notifyEmptyClipboard
  /-- The single-flight guard was observed already held; workflow exits. -/
  | observeGuardHeld
  /-- The single-flight guard was acquired (atomic check-and-set). -/
  | acquireGuard
  /-- Indicator set to Cleansing. -/
  | iconCleansing
  /-- Indicator restored to Default. -/
  | iconDefault
  /-- StartPolishing notification. -/
  | notifyStartPolishing
  /-- Call to the polish service. -/
  | serviceCall
  /-- ApiError notification. -/
  | notifyApiError
  /-- Clipboard write attempt of the cleansed text. -/
  | writeClipboard
  /-- PolishSuccess notification. -/
  | notifySuccess
  /-- `UndoText` task submitted to the Resource Owner. -/
  | submitUndo
  /-- The Resource Owner's input-injection undo attempt
  (`local_task_handler.rs` line 70). -/
  | undoKeys
  /-- The unit reply on the `UndoText` one-shot, sent by the Resource Owner
  (`local_task_handler.rs` line 71) and received by the coordinator. -/
  | undoReply
  /-- `PasteFromClipboard` task submitted to the Resource Owner. -/
  | submitPaste
  /-- The single-flight guard was released. -/
  | releaseGuard
  deriving DecidableEq, Repr

/-- Outcomes of the external world for one polish-workflow invocation. -/
structure PolishEnv where
  /-- Clipboard contents: `none` models an unreadable clipboard. -/
  clipboard : Option String
  /-- Whether the polish service call succeeds. -/
  serviceOk : Bool
  /-- Whether the clipboard write of the cleansed text succeeds. -/
  writeOk : Bool
  /-- The `paste_after` argument of the invocation. -/
  paste_after : Bool
  /-- Whether the Resource Owner's `undo_text` injection succeeds; on failure
  the `unwrap` panics the dispatched unit before the reply is sent, so the
  coordinator sees the one-shot closed. -/
  undoOk : Bool
  deriving Repr

/-- Modelled from the spec: `cleanse_clipboard(context, paste_after)` — the
Polish Workflow Coordinator (spec §4.3), whose code is not part of this
snapshot (only the Resource Owner side of its undo/paste submissions is, in
`local_task_handler.rs`).  Steps follow §4.3: read clipboard (empty or
unreadable exits before the guard); atomically check-and-set the
single-flight guard (modelled as one indivisible operation, §5); indicator
Cleansing and StartPolishing notice; service call (failure: ApiError,
indicator Default, guard released); clipboard write (failure: indicator
Default, guard released, §3); then, if `paste_after`, submit `UndoText` and
await its reply before submitting `PasteFromClipboard` (§4.3 step 5), a
closed reply channel being treated as failure that still resets indicator
and guard (§5).  The Resource Owner's handling of the submitted tasks is
inlined from `local_task_handler.rs` lines 66-72: undo attempt, then reply
only if the attempt succeeded.  Arguments: the environment and the guard
value at the check; result: the guard after the invocation and the event
trace. -/
def cleanse_clipboard (env : PolishEnv) (guard : Bool) :
    Bool × List PolishEvent :=
  match env.clipboard with
  | none => (guard, [.readClipboard, .notifyEmptyClipboard])
  | some t =>
    if t.isEmpty then (guard, [.readClipboard, .notifyEmptyClipboard])
    else if guard then (guard, [.readClipboard, .observeGuardHeld])
    else
      let pre : List PolishEvent :=
        [.readClipboard, .acquireGuard, .iconCleansing,
         .notifyStartPolishing, .serviceCall]
      if !env.serviceOk then
        (false, pre ++ [.notifyApiError, .iconDefault, .releaseGuard])
      else if !env.writeOk then
        (false, pre ++ [.writeClipboard, .iconDefault, .releaseGuard])
      else if !env.paste_after then
        (false, pre ++ [.writeClipboard, .notifySuccess, .iconDefault,
                        .releaseGuard])
      else if env.undoOk then
        (false, pre ++ [.writeClipboard, .submitUndo, .undoKeys, .undoReply,
                        .submitPaste, .iconDefault, .releaseGuard])
      else
        (false, pre ++ [.writeClipboard, .submitUndo, .undoKeys,
                        .iconDefault, .releaseGuard])

/-! ## Specification predicates -/

/-- The reply pattern claim C1 asserts along a run of `ToggleRecording`
tasks, parameterised by the `is_recording` flag before each task: an empty
byte vector exactly when recording starts, a non-empty byte vector or no
reply exactly when it stops, the flag alternating. -/
def goodReplies : Bool → List (Option (List Nat)) → Prop
  | _, [] => True
  | false, rep :: rest => rep = some [] ∧ goodReplies true rest
  | true, rep :: rest =>
      (rep = none ∨ ∃ b, rep = some b ∧ b ≠ []) ∧ goodReplies false rest

/-- The `AudioRecorder` invariant of the spec: recording iff a stream handle
is present. -/
def recInv (r : AudioRecorder) : Prop :=
  r.is_recording = true ↔ r.stream.isSome = true

/-! ## Helper lemmas -/

theorem wavBytes_ne_nil (chans rate : Nat) (samples : List Int) :
    wavBytes chans rate samples ≠ [] := by
  simp [wavBytes, wavHeader]

theorem stop_not_recording (ioOk : Bool) (r : AudioRecorder)
    (h : r.is_recording = false) :
    r.stop_recording_and_get_bytes ioOk = (r, none) := by
  unfold AudioRecorder.stop_recording_and_get_bytes
  simp [h]

theorem stop_fst (ioOk : Bool) (r : AudioRecorder)
    (h : r.is_recording = true) :
    (r.stop_recording_and_get_bytes ioOk).1 =
      { r with is_recording := false, stream := none } := by
  rcases r with ⟨st, sr, ch, sm, ir⟩
  simp only at h
  subst h
  rcases sr with _ | rate <;> rcases ch with _ | chans <;>
    rcases ioOk <;> rcases sm with _ | ⟨a, tl⟩ <;>
    simp [AudioRecorder.stop_recording_and_get_bytes]

theorem stop_snd_some (ioOk : Bool) (r : AudioRecorder) (b : List Nat)
    (h : (r.stop_recording_and_get_bytes ioOk).2 = some b) :
    r.is_recording = true ∧ r.samples ≠ [] ∧ ioOk = true ∧
      ∃ rate chans, r.sample_rate = some rate ∧ r.channels = some chans ∧
        b = wavBytes chans rate r.samples := by
  rcases r with ⟨st, sr, ch, sm, ir⟩
  rcases ir <;> rcases sr with _ | rate <;> rcases ch with _ | chans <;>
    rcases ioOk <;> rcases sm with _ | ⟨a, tl⟩ <;>
    simp_all [AudioRecorder.stop_recording_and_get_bytes]

theorem stop_snd_none (ioOk : Bool) (r : AudioRecorder)
    (h : r.samples = [] ∨ r.sample_rate = none ∨ r.channels = none) :
    (r.stop_recording_and_get_bytes ioOk).2 = none := by
  rcases r with ⟨st, sr, ch, sm, ir⟩
  rcases ir <;> rcases sr with _ | rate <;> rcases ch with _ | chans <;>
    rcases ioOk <;> rcases sm with _ | ⟨a, tl⟩ <;>
    simp_all [AudioRecorder.stop_recording_and_get_bytes]

theorem pause_spotify_ok (env : StepEnv) (m m' : MediaPlayer)
    (evs : List Event) (h : m.pause_spotify env = .ok (m', evs)) :
    (evs = [.queryRunning, .queryState, .pauseCmd] ∧
        m' = { was_playing := true }) ∨
      (evs = [.queryRunning, .queryState] ∧ m' = m) := by
  unfold MediaPlayer.pause_spotify at h
  split at h
  · simp at h
  · split at h
    · simp at h
    · split at h
      · split at h
        · simp at h
          obtain ⟨rfl, rfl⟩ := h
          simp
        · simp at h
      · simp at h
        obtain ⟨rfl, rfl⟩ := h
        simp

theorem play_spotify_ok (env : StepEnv) (m m' : MediaPlayer)
    (evs : List Event) (h : m.play_spotify env = .ok (m', evs)) :
    (evs = [] ∧ m' = m) ∨
      (evs = [.playCmd] ∧ m' = { was_playing := false }) := by
  unfold MediaPlayer.play_spotify at h
  split at h
  · simp at h
    obtain ⟨rfl, rfl⟩ := h
    simp
  · split at h
    · simp at h
      obtain ⟨rfl, rfl⟩ := h
      simp
    · simp at h

theorem start_recording_not_recording (cfg : DeviceConfig) (r : AudioRecorder)
    (h : r.is_recording = false) :
    r.start_recording cfg =
      { stream := some ()
        sample_rate := some cfg.sample_rate
        channels := some cfg.channels
        samples := []
        is_recording := true } := by
  unfold AudioRecorder.start_recording
  simp [h]

theorem capture_is_recording (xs : List Int) (r : AudioRecorder) :
    (r.capture xs).is_recording = r.is_recording := by
  unfold AudioRecorder.capture
  split <;> rfl

theorem replyOf_cons (e : Event) (l : List Event) :
    replyOf (e :: l) =
      match e with
      | .sendBytes b => some b
      | _ => replyOf l := by
  cases e <;> rfl

theorem goodReplies_cons_false (rep : Option (List Nat))
    (rest : List (Option (List Nat))) :
    goodReplies false (rep :: rest) ↔ rep = some [] ∧ goodReplies true rest :=
  Iff.rfl

theorem goodReplies_cons_true (rep : Option (List Nat))
    (rest : List (Option (List Nat))) :
    goodReplies true (rep :: rest) ↔
      (rep = none ∨ ∃ b, rep = some b ∧ b ≠ []) ∧ goodReplies false rest :=
  Iff.rfl

theorem toggle_step_spec (env : StepEnv) (s s' : OwnerState) (evs : List Event)
    (h : local_task_step env s .ToggleRecording = .ok (s', evs)) :
    s'.recorder.is_recording = !s.recorder.is_recording ∧
    (s.recorder.is_recording = false → replyOf evs = some []) ∧
    (s.recorder.is_recording = true →
      replyOf evs = none ∨ ∃ b, replyOf evs = some b ∧ b ≠ []) := by
  simp only [local_task_step] at h
  split at h
  · rename_i hrec0
    have hrec : s.recorder.is_recording = false := by simpa using hrec0
    split at h
    · simp at h
    · rename_i m' ev1 hpause
      split at h
      · simp at h
        obtain ⟨rfl, rfl⟩ := h
        refine ⟨?_, ?_, ?_⟩
        · simp [start_recording_not_recording env.cfg s.recorder hrec, hrec]
        · intro
          rcases pause_spotify_ok env s.media m' ev1 hpause with ⟨rfl, rfl⟩ | ⟨rfl, rfl⟩ <;>
            decide
        · intro hcontra
          rw [hrec] at hcontra
          exact absurd hcontra (by simp)
      · simp at h
  · rename_i hrec0
    have hrec : s.recorder.is_recording = true := by simpa using hrec0
    split at h
    · split at h
      · rename_i r' hstop
        simp at h
        obtain ⟨rfl, rfl⟩ := h
        have hr' : r' = (s.recorder.stop_recording_and_get_bytes env.stopIoOk).1 := by
          rw [hstop]
        refine ⟨?_, ?_, ?_⟩
        · simp [hr', stop_fst env.stopIoOk s.recorder hrec, hrec]
        · intro hcontra
          rw [hrec] at hcontra
          exact absurd hcontra (by simp)
        · intro
          exact .inl (by decide)
      · rename_i r' bytes hstop
        split at h
        · simp at h
        · rename_i m' ev2 hplay
          have hbytes : (s.recorder.stop_recording_and_get_bytes env.stopIoOk).2 =
              some bytes := by rw [hstop]
          obtain ⟨-, -, -, rate, chans, -, -, hb⟩ :=
            stop_snd_some env.stopIoOk s.recorder bytes hbytes
          have hr' : r' = (s.recorder.stop_recording_and_get_bytes env.stopIoOk).1 := by
            rw [hstop]
          simp at h
          obtain ⟨rfl, rfl⟩ := h
          refine ⟨?_, ?_, ?_⟩
          · simp [hr', stop_fst env.stopIoOk s.recorder hrec, hrec]
          · intro hcontra
            rw [hrec] at hcontra
            exact absurd hcontra (by simp)
          · intro
            refine .inr ⟨bytes, ?_, ?_⟩
            · rcases play_spotify_ok env s.media m' ev2 hplay with ⟨rfl, rfl⟩ | ⟨rfl, rfl⟩ <;>
                rcases env.replyOk <;> simp [replyOf_cons]
            · rw [hb]
              exact wavBytes_ne_nil chans rate s.recorder.samples
    · simp at h

theorem runToggles_spec (envs : List StepEnv) (s sf : OwnerState)
    (replies : List (Option (List Nat)))
    (h : runToggles envs s = some (sf, replies)) :
    replies.length = envs.length ∧
    goodReplies s.recorder.is_recording replies ∧
    sf.recorder.is_recording =
      (if envs.length % 2 = 0 then s.recorder.is_recording
       else !s.recorder.is_recording) := by
  induction envs generalizing s replies with
  | nil =>
    unfold runToggles at h
    simp at h
    obtain ⟨rfl, rfl⟩ := h
    simp [goodReplies]
  | cons env rest ih =>
    unfold runToggles at h
    split at h
    · simp at h
    · rename_i s2 evs hstep
      split at h
      · simp at h
      · rename_i sf' reps hrun
        simp at h
        obtain ⟨rfl, rfl⟩ := h
        obtain ⟨hlen, hgood, hflag⟩ := ih s2 reps hrun
        have hcap : ({ s with recorder := s.recorder.capture env.captured } :
            OwnerState).recorder.is_recording = s.recorder.is_recording :=
          capture_is_recording env.captured s.recorder
        obtain ⟨hflip, hstart, hstop⟩ :=
          toggle_step_spec env _ s2 evs hstep
        rw [hcap] at hflip hstart hstop
        refine ⟨by simp [hlen], ?_, ?_⟩
        · rcases hs : s.recorder.is_recording
          · have h2 : s2.recorder.is_recording = true := by
              simp only [hs] at hflip; simpa using hflip
            rw [h2] at hgood
            rw [goodReplies_cons_false]
            exact ⟨hstart hs, hgood⟩
          · have h2 : s2.recorder.is_recording = false := by
              simp only [hs] at hflip; simpa using hflip
            rw [h2] at hgood
            rw [goodReplies_cons_true]
            exact ⟨hstop hs, hgood⟩
        · rw [hflag, hflip]
          rcases Nat.mod_two_eq_zero_or_one rest.length with hp | hp
          · have hp1 : (rest.length + 1) % 2 = 1 := by omega
            simp [hp, hp1, List.length_cons]
          · have hp1 : (rest.length + 1) % 2 = 0 := by omega
            simp [hp, hp1, List.length_cons]

theorem stop_failure_step (env : StepEnv) (s : OwnerState)
    (hrec : s.recorder.is_recording = true) (hicon : env.iconOk = true)
    (hnone : (s.recorder.stop_recording_and_get_bytes env.stopIoOk).2 = none) :
    local_task_step env s .ToggleRecording =
      .ok ({ s with recorder :=
              (s.recorder.stop_recording_and_get_bytes env.stopIoOk).1 },
           [.iconSet .Default, .logStopFailed]) := by
  rcases hstop : s.recorder.stop_recording_and_get_bytes env.stopIoOk with ⟨r', d⟩
  rw [hstop] at hnone
  simp at hnone
  subst hnone
  simp [local_task_step, hrec, hicon, hstop]

theorem playCmd_needs_bytes (env : StepEnv) (s s' : OwnerState)
    (evs : List Event)
    (h : local_task_step env s .ToggleRecording = .ok (s', evs))
    (hmem : Event.playCmd ∈ evs) :
    ∃ b, (s.recorder.stop_recording_and_get_bytes env.stopIoOk).2 = some b := by
  simp only [local_task_step] at h
  split at h
  · split at h
    · simp at h
    · rename_i m' ev1 hpause
      split at h
      · simp at h
        obtain ⟨rfl, rfl⟩ := h
        rcases pause_spotify_ok env s.media m' ev1 hpause with ⟨rfl, rfl⟩ | ⟨rfl, rfl⟩ <;>
          simp at hmem
      · simp at h
  · split at h
    · split at h
      · simp at h
        obtain ⟨rfl, rfl⟩ := h
        simp at hmem
      · rename_i r' bytes hstop
        split at h
        · simp at h
        · exact ⟨bytes, by rw [hstop]⟩
    · simp at h

instance : DecidableEq (Except Unit (OwnerState × List Event)) := fun a b =>
  match a, b with
  | .error x, .error y => by
      cases x; cases y; exact isTrue rfl
  | .ok x, .ok y =>
      if h : x = y then isTrue (by rw [h]) else isFalse (by simp [h])
  | .error _, .ok _ => isFalse (by simp)
  | .ok _, .error _ => isFalse (by simp)

/-! ## Concrete states and environments used by witnesses and
counterexamples -/

/-- A fully successful external world with the media player idle. -/
def envA : StepEnv :=
  { runningAnswer := some false
    stateAnswer := some false
    pauseOk := true
    playOk := true
    iconOk := true
    cfg := { sample_rate := 1, channels := 1 }
    captured := []
    stopIoOk := true
    pasteOk := true
    undoOk := true
    replyOk := true }

/-- Like `envA`, with one sample captured while the stream was live. -/
def envB : StepEnv := { envA with captured := [7] }

/-- The owner state after the two-toggle run `[envA, envB]`. -/
def sfC : OwnerState :=
  { recorder :=
      { stream := none
        sample_rate := some 1
        channels := some 1
        samples := [7]
        is_recording := false }
    media := { was_playing := false } }

/-- A recorder mid-recording whose buffer holds one sample. -/
def recFull : AudioRecorder :=
  { stream := some ()
    sample_rate := some 1
    channels := some 1
    samples := [3]
    is_recording := true }

/-- A recorder mid-recording with an empty sample buffer. -/
def recEmpty : AudioRecorder :=
  { stream := some ()
    sample_rate := some 1
    channels := some 1
    samples := []
    is_recording := true }

/-! ## Claims -/

/-- Claim C1: for every sequence of `ToggleRecording` tasks handled by the
Resource Owner starting from a freshly constructed recorder (each dispatched
unit completing without a panic), every task flips `is_recording`, so the
flag strictly alternates starting from `false`; and the reply sent on the
task's one-shot channel is the empty byte sequence exactly on transitions
into recording, and a non-empty byte sequence or no reply at all exactly on
transitions out. -/
theorem claim_C1_toggle_alternation :
    (∀ env s s' evs,
        local_task_step env s .ToggleRecording = .ok (s', evs) →
        s'.recorder.is_recording = !s.recorder.is_recording) ∧
    ∀ envs sf replies,
      runToggles envs OwnerState.init = some (sf, replies) →
      replies.length = envs.length ∧ goodReplies false replies ∧
        sf.recorder.is_recording = decide (envs.length % 2 = 1) := by
  refine ⟨fun env s s' evs h => (toggle_step_spec env s s' evs h).1, ?_⟩
  intro envs sf replies h
  obtain ⟨h1, h2, h3⟩ := runToggles_spec envs OwnerState.init sf replies h
  refine ⟨h1, h2, ?_⟩
  rw [h3]
  rcases Nat.mod_two_eq_zero_or_one envs.length with hp | hp <;>
    simp [hp, OwnerState.init, AudioRecorder.new]

/-- Witness for C1: a concrete two-toggle run (start, then stop with one
captured sample). -/
theorem claim_C1_witness :
    ((OwnerState.mk
        (AudioRecorder.new.start_recording { sample_rate := 1, channels := 1 })
        MediaPlayer.new).recorder.is_recording
        = !OwnerState.init.recorder.is_recording) ∧
    ([some [], some (wavBytes 1 1 [7])].length =
        ([envA, envB] : List StepEnv).length ∧
      goodReplies false [some [], some (wavBytes 1 1 [7])] ∧
      sfC.recorder.is_recording =
        decide (([envA, envB] : List StepEnv).length % 2 = 1)) := by
  constructor
  · exact claim_C1_toggle_alternation.1 envA OwnerState.init
      (OwnerState.mk
        (AudioRecorder.new.start_recording { sample_rate := 1, channels := 1 })
        MediaPlayer.new)
      [.queryRunning, .queryState, .iconSet .Recording, .sendBytes []]
      (by decide)
  · exact claim_C1_toggle_alternation.2 [envA, envB] sfC
      [some [], some (wavBytes 1 1 [7])] (by decide)

/-- Claim C3: stopping a recorder that never started recording returns the
state unchanged with no data; an empty buffer or absent format metadata
yields no data; a produced byte sequence is never empty; and on the
`ToggleRecording` stop path with no data the Resource Owner sends no reply
on the one-shot channel (the unit's events are only the icon change and the
error log). -/
theorem claim_C3_stop_failure_no_reply :
    (∀ (io : Bool) (r : AudioRecorder), r.is_recording = false →
        r.stop_recording_and_get_bytes io = (r, none)) ∧
    (∀ (io : Bool) (r : AudioRecorder),
        (r.samples = [] ∨ r.sample_rate = none ∨ r.channels = none) →
        (r.stop_recording_and_get_bytes io).2 = none) ∧
    (∀ (io : Bool) (r : AudioRecorder) (b : List Nat),
        (r.stop_recording_and_get_bytes io).2 = some b → b ≠ []) ∧
    (∀ env s, s.recorder.is_recording = true → env.iconOk = true →
        (s.recorder.stop_recording_and_get_bytes env.stopIoOk).2 = none →
        local_task_step env s .ToggleRecording =
          .ok ({ s with recorder :=
                  (s.recorder.stop_recording_and_get_bytes env.stopIoOk).1 },
               [.iconSet .Default, .logStopFailed])) := by
  refine ⟨stop_not_recording, stop_snd_none, ?_, stop_failure_step⟩
  intro io r b h
  obtain ⟨-, -, -, rate, chans, -, -, hb⟩ := stop_snd_some io r b h
  rw [hb]
  exact wavBytes_ne_nil chans rate r.samples

/-- Witness for C3 at concrete recorders and a concrete stop-failure step. -/
theorem claim_C3_witness :
    AudioRecorder.new.stop_recording_and_get_bytes true =
        (AudioRecorder.new, none) ∧
    (recEmpty.stop_recording_and_get_bytes true).2 = none ∧
    wavBytes 1 1 [3] ≠ [] ∧
    local_task_step envA ⟨recEmpty, MediaPlayer.new⟩ .ToggleRecording =
      .ok ({ OwnerState.mk recEmpty MediaPlayer.new with recorder :=
              (recEmpty.stop_recording_and_get_bytes envA.stopIoOk).1 },
           [.iconSet .Default, .logStopFailed]) := by
  refine ⟨claim_C3_stop_failure_no_reply.1 true AudioRecorder.new (by decide),
    claim_C3_stop_failure_no_reply.2.1 true recEmpty (by decide),
    claim_C3_stop_failure_no_reply.2.2.1 true recFull (wavBytes 1 1 [3])
      (by decide),
    claim_C3_stop_failure_no_reply.2.2.2 envA ⟨recEmpty, MediaPlayer.new⟩
      (by decide) (by decide) (by decide)⟩

/-- Claim C8: the invariant `is_recording = true` iff a stream handle is
present holds for a fresh recorder and is preserved by every completing call
to `start_recording` and `stop_recording_and_get_bytes`. -/
theorem claim_C8_stream_invariant :
    recInv AudioRecorder.new ∧
    (∀ cfg r, recInv r → recInv (r.start_recording cfg)) ∧
    (∀ io r, recInv r → recInv (r.stop_recording_and_get_bytes io).1) := by
  refine ⟨by simp [recInv, AudioRecorder.new], ?_, ?_⟩
  · intro cfg r hr
    unfold AudioRecorder.start_recording
    rcases h : r.is_recording
    · simp [recInv]
    · simpa [h] using hr
  · intro io r hr
    rcases h : r.is_recording
    · rw [stop_not_recording io r h]
      exact hr
    · rw [stop_fst io r h]
      simp [recInv]

/-- Witness for C8 at a fresh recorder and at a mid-recording state. -/
theorem claim_C8_witness :
    recInv (AudioRecorder.new.start_recording { sample_rate := 1, channels := 1 }) ∧
    recInv (recFull.stop_recording_and_get_bytes true).1 := by
  constructor
  · exact claim_C8_stream_invariant.2.1 { sample_rate := 1, channels := 1 }
      AudioRecorder.new (by simp [recInv, AudioRecorder.new])
  · exact claim_C8_stream_invariant.2.2 true recFull
      (by simp [recInv, recFull])

/-- Claim C9 counterexample: after a successful stop the shared sample
buffer is NOT drained — the source clones the buffer (`main.rs` line 123),
so after the call it still holds the recorded samples, refuting "after the
call the shared sample buffer is empty". -/
theorem claim_C9_counterexample :
    (recFull.stop_recording_and_get_bytes true).2 = some (wavBytes 1 1 [3]) ∧
    (recFull.stop_recording_and_get_bytes true).1.samples = [3] := by decide

/-- Claim C9 as amended: `stop_recording_and_get_bytes` on a recording state
transitions to idle and drops the stream, and encodes a copy of the buffer —
the buffer is left unchanged by the call and is cleared only by the next
`start_recording`; the prior buffer contents are the sole source of the
returned bytes. -/
theorem claim_C9_stop_copies_buffer (io : Bool) (r : AudioRecorder)
    (h : r.is_recording = true) :
    (r.stop_recording_and_get_bytes io).1 =
      { r with is_recording := false, stream := none } ∧
    (∀ b, (r.stop_recording_and_get_bytes io).2 = some b →
      ∃ rate chans, r.sample_rate = some rate ∧ r.channels = some chans ∧
        b = wavBytes chans rate r.samples) ∧
    ∀ cfg, ((r.stop_recording_and_get_bytes io).1.start_recording cfg).samples = [] := by
  refine ⟨stop_fst io r h, ?_, ?_⟩
  · intro b hb
    obtain ⟨-, -, -, rate, chans, h1, h2, h3⟩ := stop_snd_some io r b hb
    exact ⟨rate, chans, h1, h2, h3⟩
  · intro cfg
    rw [stop_fst io r h]
    rw [start_recording_not_recording cfg _ rfl]

/-- Witness for the amended C9 at a concrete recording state. -/
theorem claim_C9_witness :
    (recFull.stop_recording_and_get_bytes true).1 =
      { recFull with is_recording := false, stream := none } ∧
    (∃ rate chans, recFull.sample_rate = some rate ∧
      recFull.channels = some chans ∧
      wavBytes 1 1 [3] = wavBytes chans rate recFull.samples) ∧
    ((recFull.stop_recording_and_get_bytes true).1.start_recording
        { sample_rate := 2, channels := 2 }).samples = [] := by
  obtain ⟨h1, h2, h3⟩ := claim_C9_stop_copies_buffer true recFull rfl
  exact ⟨h1, h2 (wavBytes 1 1 [3]) (by decide),
    h3 { sample_rate := 2, channels := 2 }⟩

/-- Claim C10: on the `ToggleRecording` stop path, when the recorder yields
no data the unit of work returns before the media controller's resume: the
media state (in particular `was_playing`) is unchanged and no play command
is issued; moreover, across all completing `ToggleRecording` units, a play
command is issued only when the stop produced data. -/
theorem claim_C10_no_resume_on_stop_failure :
    (∀ env s, s.recorder.is_recording = true → env.iconOk = true →
      (s.recorder.stop_recording_and_get_bytes env.stopIoOk).2 = none →
      local_task_step env s .ToggleRecording =
        .ok ({ s with recorder :=
                (s.recorder.stop_recording_and_get_bytes env.stopIoOk).1 },
             [.iconSet .Default, .logStopFailed]) ∧
      ({ s with recorder :=
          (s.recorder.stop_recording_and_get_bytes env.stopIoOk).1 } :
        OwnerState).media.was_playing = s.media.was_playing ∧
      Event.playCmd ∉
        ([.iconSet .Default, .logStopFailed] : List Event)) ∧
    ∀ env s s' evs,
      local_task_step env s .ToggleRecording = .ok (s', evs) →
      Event.playCmd ∈ evs →
      ∃ b, (s.recorder.stop_recording_and_get_bytes env.stopIoOk).2 = some b := by
  refine ⟨?_, playCmd_needs_bytes⟩
  intro env s h1 h2 h3
  exact ⟨stop_failure_step env s h1 h2 h3, rfl, by decide⟩

/-- Witness for C10: a stop with an empty buffer, the media player
previously paused by the workflow (`was_playing = true`). -/
theorem claim_C10_witness :
    (local_task_step envA ⟨recEmpty, MediaPlayer.mk true⟩ .ToggleRecording =
        .ok ({ OwnerState.mk recEmpty (MediaPlayer.mk true) with recorder :=
                (recEmpty.stop_recording_and_get_bytes envA.stopIoOk).1 },
             [.iconSet .Default, .logStopFailed]) ∧
      ({ OwnerState.mk recEmpty (MediaPlayer.mk true) with recorder :=
          (recEmpty.stop_recording_and_get_bytes envA.stopIoOk).1 } :
        OwnerState).media.was_playing =
        (OwnerState.mk recEmpty (MediaPlayer.mk true)).media.was_playing ∧
      Event.playCmd ∉
        ([.iconSet .Default, .logStopFailed] : List Event)) ∧
    ∃ b, (recFull.stop_recording_and_get_bytes envB.stopIoOk).2 = some b := by
  constructor
  · exact claim_C10_no_resume_on_stop_failure.1 envA
      ⟨recEmpty, MediaPlayer.mk true⟩ (by decide) (by decide) (by decide)
  · exact claim_C10_no_resume_on_stop_failure.2 envB
      ⟨recFull, MediaPlayer.mk true⟩
      ⟨{ recFull with is_recording := false, stream := none },
        MediaPlayer.mk false⟩
      [.iconSet .Default, .playCmd, .sendBytes (wavBytes 1 1 [3])]
      (by decide) (by decide)

/-- Claim C2 counterexample: a paste-injection failure is not logged-only —
the `unwrap()` on `paste_from_clipboard` (`local_task_handler.rs` line 67)
panics the dispatched unit of work, refuting "never panics on a
task-handling error". -/
theorem claim_C2_counterexample :
    local_task_step { envA with pasteOk := false } OwnerState.init
      .PasteFromClipboard = .error () := by decide

/-- Claim C2 as amended: collaborator failures during task handling are not
logged-only — paste failures, undo failures, media pause query failures and
icon failures each hit an `unwrap()` and panic the dispatched unit of work
(the surrounding receive loop survives only because each unit is spawned
separately). -/
theorem claim_C2_failures_panic :
    (∀ (env : StepEnv) (s : OwnerState), env.pasteOk = false →
        local_task_step env s .PasteFromClipboard = .error ()) ∧
    (∀ (env : StepEnv) (s : OwnerState), env.undoOk = false →
        local_task_step env s .UndoText = .error ()) ∧
    (∀ (env : StepEnv) (s : OwnerState), s.recorder.is_recording = false →
        env.runningAnswer = none →
        local_task_step env s .ToggleRecording = .error ()) ∧
    (∀ (env : StepEnv) (s : OwnerState), s.recorder.is_recording = true →
        env.iconOk = false →
        local_task_step env s .ToggleRecording = .error ()) := by
  refine ⟨?_, ?_, ?_, ?_⟩
  · intro env s h
    simp [local_task_step, h]
  · intro env s h
    simp [local_task_step, h]
  · intro env s h1 h2
    simp [local_task_step, MediaPlayer.pause_spotify, h1, h2]
  · intro env s h1 h2
    simp [local_task_step, h1, h2]

/-- Witness for the amended C2 at concrete failing environments. -/
theorem claim_C2_witness :
    local_task_step { envA with undoOk := false } OwnerState.init
        .UndoText = .error () ∧
    local_task_step { envA with runningAnswer := none } OwnerState.init
        .ToggleRecording = .error () ∧
    local_task_step { envA with iconOk := false } ⟨recFull, MediaPlayer.new⟩
        .ToggleRecording = .error () := by
  refine ⟨claim_C2_failures_panic.2.1 { envA with undoOk := false }
      OwnerState.init rfl,
    claim_C2_failures_panic.2.2.1 { envA with runningAnswer := none }
      OwnerState.init rfl rfl,
    claim_C2_failures_panic.2.2.2 { envA with iconOk := false }
      ⟨recFull, MediaPlayer.new⟩ rfl rfl⟩

/-- Claim C6 counterexample: the trigger-side `toggle_recording` of
`main.rs` (lines 443-451, its start branch) issues the Spotify pause command
unconditionally — the player state is not consulted at all — so a
toggle-to-record with the player idle does issue a pause command. -/
theorem claim_C6_counterexample :
    Event.pauseCmd ∈
      (toggle_recording true { sample_rate := 1, channels := 1 } true
        AudioRecorder.new).2.2 := by decide

/-- Claim C6 as amended: for the Resource Owner's media controller
(`MediaPlayer`), when the two state queries succeed and the issued commands
succeed, `pause_spotify` issues a pause command and sets `was_playing` if
and only if the player is running and playing, and `play_spotify` is a
no-op unless `was_playing` is set, in which case it issues exactly one play
command and clears the flag; the `main.rs` trigger-side toggle, by
contrast, issues its pause command unconditionally. -/
theorem claim_C6_media_controller (env : StepEnv) (m : MediaPlayer)
    (rn pl : Bool) (hrn : env.runningAnswer = some rn)
    (hpl : env.stateAnswer = some pl) (hpause : env.pauseOk = true)
    (hplay : env.playOk = true) :
    (m.pause_spotify env =
      if rn && pl then
        .ok ({ was_playing := true },
             [.queryRunning, .queryState, .pauseCmd])
      else .ok (m, [.queryRunning, .queryState])) ∧
    (m.was_playing = false → m.play_spotify env = .ok (m, [])) ∧
    (m.was_playing = true →
      m.play_spotify env = .ok ({ was_playing := false }, [.playCmd])) := by
  refine ⟨?_, ?_, ?_⟩
  · unfold MediaPlayer.pause_spotify
    rw [hrn, hpl]
    rcases hc : rn && pl <;> simp [hc, hpause]
  · intro h
    unfold MediaPlayer.play_spotify
    simp [h]
  · intro h
    unfold MediaPlayer.play_spotify
    simp [h, hplay]

/-- Witness for the amended C6: player running and playing, then a resume
from `was_playing = true`. -/
theorem claim_C6_witness :
    ((MediaPlayer.mk false).pause_spotify
        { envA with runningAnswer := some true, stateAnswer := some true } =
      if (true && true : Bool) then
        .ok ({ was_playing := true },
             [.queryRunning, .queryState, .pauseCmd])
      else .ok (MediaPlayer.mk false, [.queryRunning, .queryState])) ∧
    (MediaPlayer.mk true).play_spotify
        { envA with runningAnswer := some true, stateAnswer := some true } =
      .ok ({ was_playing := false }, [.playCmd]) := by
  obtain ⟨h1, -, h3⟩ := claim_C6_media_controller
    { envA with runningAnswer := some true, stateAnswer := some true }
    (MediaPlayer.mk false) true true rfl rfl rfl rfl
  obtain ⟨-, -, h3'⟩ := claim_C6_media_controller
    { envA with runningAnswer := some true, stateAnswer := some true }
    (MediaPlayer.mk true) true true rfl rfl rfl rfl
  exact ⟨h1, h3' rfl⟩

/-- Claim C7 counterexample: when the undo injection fails, the `unwrap()`
on `undo_text` (`local_task_handler.rs` line 70) panics the dispatched unit
before the reply send, so the unit reply is NOT sent unconditionally after
the action attempt. -/
theorem claim_C7_counterexample :
    local_task_step { envA with undoOk := false, replyOk := true }
      OwnerState.init .UndoText = .error () := by decide

/-- Claim C7 as amended: handling `UndoText` invokes the undo action and
sends the unit reply after the attempt only when the undo succeeded (the
send itself panicking if the receiver is gone); when the undo fails the
dispatched unit panics and no reply is sent. -/
theorem claim_C7_undo_reply (env : StepEnv) (s : OwnerState) :
    (env.undoOk = true → env.replyOk = true →
      local_task_step env s .UndoText = .ok (s, [.undoKeys, .sendUnit])) ∧
    (env.undoOk = false → local_task_step env s .UndoText = .error ()) ∧
    (env.undoOk = true → env.replyOk = false →
      local_task_step env s .UndoText = .error ()) := by
  refine ⟨?_, ?_, ?_⟩
  · intro h1 h2
    simp [local_task_step, h1, h2]
  · intro h1
    simp [local_task_step, h1]
  · intro h1 h2
    simp [local_task_step, h1, h2]

/-- Witness for the amended C7 at concrete environments. -/
theorem claim_C7_witness :
    local_task_step envA OwnerState.init .UndoText =
        .ok (OwnerState.init, [.undoKeys, .sendUnit]) ∧
    local_task_step { envA with replyOk := false } OwnerState.init
        .UndoText = .error () := by
  exact ⟨(claim_C7_undo_reply envA OwnerState.init).1 rfl rfl,
    (claim_C7_undo_reply { envA with replyOk := false }
      OwnerState.init).2.2 rfl rfl⟩

/-- A polish-workflow environment: readable non-empty clipboard, all
collaborators succeeding, `paste_after` set. -/
def envPolish : PolishEnv :=
  { clipboard := some "x"
    serviceOk := true
    writeOk := true
    paste_after := true
    undoOk := true }

/-- Claim C4 counterexample: a second `cleanse_clipboard` invocation
launched while the guard is held still performs a clipboard read — the
clipboard is read in step 1, before the guard check of step 2 — refuting
"performs zero clipboard reads". -/
theorem claim_C4_counterexample :
    PolishEvent.readClipboard ∈ (cleanse_clipboard envPolish true).2 := by
  decide

/-- Claim C4 as amended: a `cleanse_clipboard` invocation that reaches the
guard check while the guard is already held observes this and exits having
performed exactly one clipboard read and nothing else — in particular zero
service calls, zero clipboard writes and zero paste submissions (this holds
for every invocation under a held guard); the guard check-and-set is a
single indivisible operation in the model, and a workflow that starts with
the guard free leaves it cleared on every exit path. -/
theorem claim_C4_single_flight :
    (∀ env : PolishEnv,
        PolishEvent.serviceCall ∉ (cleanse_clipboard env true).2 ∧
        PolishEvent.writeClipboard ∉ (cleanse_clipboard env true).2 ∧
        PolishEvent.submitPaste ∉ (cleanse_clipboard env true).2) ∧
    (∀ (env : PolishEnv) (t : String), env.clipboard = some t →
        t.isEmpty = false →
        (cleanse_clipboard env true).2 =
          [.readClipboard, .observeGuardHeld]) ∧
    (∀ env : PolishEnv, (cleanse_clipboard env false).1 = false) := by
  refine ⟨?_, ?_, ?_⟩
  · intro env
    rcases env with ⟨clip, sOk, wOk, pA, uOk⟩
    rcases clip with _ | t
    · simp [cleanse_clipboard]
    · rcases hE : t.isEmpty
      · simp [cleanse_clipboard, hE]
      · simp [cleanse_clipboard, hE]
  · intro env t hclip hE
    rcases env with ⟨clip, sOk, wOk, pA, uOk⟩
    simp only at hclip
    subst hclip
    simp [cleanse_clipboard, hE]
  · intro env
    rcases env with ⟨clip, sOk, wOk, pA, uOk⟩
    rcases clip with _ | t
    · simp [cleanse_clipboard]
    · rcases hE : t.isEmpty <;> rcases sOk <;> rcases wOk <;> rcases pA <;>
        rcases uOk <;> simp [cleanse_clipboard, hE]

/-- Witness for C4 at the concrete environment and a held guard. -/
theorem claim_C4_witness :
    (PolishEvent.serviceCall ∉ (cleanse_clipboard envPolish true).2 ∧
      PolishEvent.writeClipboard ∉ (cleanse_clipboard envPolish true).2 ∧
      PolishEvent.submitPaste ∉ (cleanse_clipboard envPolish true).2) ∧
    (cleanse_clipboard envPolish true).2 =
      [.readClipboard, .observeGuardHeld] ∧
    (cleanse_clipboard envPolish false).1 = false := by
  exact ⟨claim_C4_single_flight.1 envPolish,
    claim_C4_single_flight.2.1 envPolish "x" rfl (by decide),
    claim_C4_single_flight.2.2 envPolish⟩

/-- Claim C5: in every polish-workflow execution, a `PasteFromClipboard`
submission occurs only after the `UndoText` reply has been received, and
that reply occurs only after the undo injection has been attempted — so the
undo's side effect precedes the paste submission. -/
theorem claim_C5_undo_before_paste (env : PolishEnv) (g : Bool) :
    (PolishEvent.submitPaste ∈ (cleanse_clipboard env g).2 →
      PolishEvent.undoReply ∈ (cleanse_clipboard env g).2 ∧
      (cleanse_clipboard env g).2.indexOf PolishEvent.undoReply <
        (cleanse_clipboard env g).2.indexOf PolishEvent.submitPaste) ∧
    (PolishEvent.undoReply ∈ (cleanse_clipboard env g).2 →
      PolishEvent.undoKeys ∈ (cleanse_clipboard env g).2 ∧
      (cleanse_clipboard env g).2.indexOf PolishEvent.undoKeys <
        (cleanse_clipboard env g).2.indexOf PolishEvent.undoReply) := by
  rcases env with ⟨clip, sOk, wOk, pA, uOk⟩
  rcases clip with _ | t
  · constructor <;> intro hmem <;> simp [cleanse_clipboard] at hmem
  · rcases hE : t.isEmpty
    · rcases g <;> rcases sOk <;> rcases wOk <;> rcases pA <;> rcases uOk <;>
        simp [cleanse_clipboard, hE]
    · constructor <;> intro hmem <;> simp [cleanse_clipboard, hE] at hmem

/-- Witness for C5: the all-success `paste_after` run, where the paste is
submitted. -/
theorem claim_C5_witness :
    (PolishEvent.undoReply ∈ (cleanse_clipboard envPolish false).2 ∧
      (cleanse_clipboard envPolish false).2.indexOf PolishEvent.undoReply <
        (cleanse_clipboard envPolish false).2.indexOf
          PolishEvent.submitPaste) ∧
    (PolishEvent.undoKeys ∈ (cleanse_clipboard envPolish false).2 ∧
      (cleanse_clipboard envPolish false).2.indexOf PolishEvent.undoKeys <
        (cleanse_clipboard envPolish false).2.indexOf
          PolishEvent.undoReply) := by
  obtain ⟨h1, h2⟩ := claim_C5_undo_before_paste envPolish false
  exact ⟨h1 (by decide), h2 (by decide)⟩

end Transcribe
